import Mathlib

/-!
# SoundPatch-AI: transaction tracker and audio pipeline, shallow embedding

A Lean model of the status-tracking and background-processing code:

* `update_transaction_status` / `get_transaction_status` / `save_file`
  from `app/services/base_audio_service.py` (class `BaseAudioService`);
* `process_audio` from the same file;
* `upload_audio` and `process_audio_background`
  from `app/routes/audio.py`;
* the exception hierarchy from `app/core/exceptions.py`.

The Redis store is modelled as an association list from keys to hash
records; network behaviour of each store call (success, silent write
loss, connection error) is an explicit oracle argument, as are the
outcomes of audio decoding, preprocessing, blob-store saves and the
Firestore user-history notification.  Timestamps are `Nat`; durations
are `Rat` (the Python code compares floats with `>`, modelled here by
exact rational comparison).  JSON metadata dictionaries are association
lists of a small JSON value type; `json.dumps`/`json.loads` are
modelled by a constructor that tags a stored string as either the
serialization of a dictionary or malformed.
-/

namespace SoundPatch

/-- JSON values appearing in transaction metadata. -/
inductive Jv where
  | jstr (s : String)
  | jnum (q : Rat)
  | jnull
  deriving Repr, DecidableEq

/-- A JSON-serializable metadata dictionary (Python `dict`). -/
abbrev Meta := List (String × Jv)

/-- The serialized `metadata` field of a stored Redis hash: either the
serialization (`json.dumps`) of a dictionary, or a malformed string on
which `json.loads` raises `JSONDecodeError`. -/
inductive MetaStored where
  | serialized (m : Meta)
  | malformed (raw : String)
  deriving Repr, DecidableEq

/-- `json.loads` applied to a stored metadata string, as used by
`get_transaction_status`: the serialization of `m` parses back to `m`;
a malformed string raises, which the caller degrades to `{}`. -/
def jsonLoads : MetaStored → Meta
  | .serialized m => m
  | .malformed _ => []

/-- The Redis hash stored under `transaction:{id}` by
`update_transaction_status`: fields `status`, `updated_at`, `metadata`. -/
structure RecordHash where
  status : String
  updated_at : Nat
  metadata : MetaStored
  deriving Repr, DecidableEq

/-- The tracker state: the Redis key space (later bindings shadow
earlier ones), together with the history of successfully persisted
`(transaction_id, status)` writes, in order. -/
structure Tracker where
  data : List (String × RecordHash)
  hist : List (String × String)
  deriving Repr, DecidableEq

/-- Look up the current hash stored for a transaction id. -/
def lookupTid : List (String × RecordHash) → String → Option RecordHash
  | [], _ => none
  | (k, v) :: rest, tid => if k = tid then some v else lookupTid rest tid

/-- The exception hierarchy of `app/core/exceptions.py` (constructors
carry the data their Python `__init__` stores). -/
inductive PyErr where
  | fileSizeError (actualMb maxMb : Rat)
  | fileFormatError (contentType : String)
  | audioDurationError (actual maxDur : Rat)
  | processingError (detail : String)
  | storageError (detail : String)
  | transactionNotFound (tid : String)
  | redisConnError (detail : String)
  | authError (detail : String)
  deriving Repr, DecidableEq

/-- `str(e)` for a raised exception, modelled from each class's detail
message in `app/core/exceptions.py`. -/
def errStr : PyErr → String
  | .fileSizeError a m =>
      "File size (" ++ toString a ++ "MB) exceeds maximum allowed size (" ++ toString m ++ "MB)"
  | .fileFormatError ct => "Unsupported file type: " ++ ct
  | .audioDurationError a m =>
      "Audio duration (" ++ toString a ++ "s) exceeds maximum allowed duration ("
        ++ toString m ++ "s)"
  | .processingError d => d
  | .storageError d => d
  | .transactionNotFound tid => "Transaction not found: " ++ tid
  | .redisConnError d => "Redis connection error: " ++ d
  | .authError d => d

/-- Network behaviour of one `update_transaction_status` call:
`ok` — `hmset` persists and the read-back returns the key's data;
`lostWrite` — `hmset` silently loses the write (the spec's "silent
write loss" failure mode), the read-back returns whatever the key held
before; `connError` — the Redis client raises before anything is
persisted. -/
inductive WriteBeh where
  | ok
  | lostWrite
  | connError
  deriving Repr, DecidableEq

/-- Network behaviour of one `get_transaction_status` call. -/
inductive ReadBeh where
  | ok
  | connError
  deriving Repr, DecidableEq

/-- `BaseAudioService.update_transaction_status(transaction_id, status,
metadata)`: builds `{status, updated_at, metadata: json.dumps(metadata)
if metadata else "{}"}`, stores it with `hmset`, re-reads the key with
`hgetall` and raises `RedisConnectionError` when the read-back is
empty; any exception is re-raised as `RedisConnectionError`. -/
def update_transaction_status (t : Tracker) (tid status : String)
    (metadata : Option Meta) (now : Nat) (beh : WriteBeh) :
    Except PyErr Tracker :=
  let newRec : RecordHash :=
    { status := status, updated_at := now,
      metadata := .serialized (metadata.getD []) }
  match beh with
  | .ok =>
      .ok { data := (tid, newRec) :: t.data, hist := t.hist ++ [(tid, status)] }
  | .lostWrite =>
      match lookupTid t.data tid with
      | none =>
          .error (.redisConnError
            "Failed to update transaction status: Failed to verify stored data")
      | some _ => .ok t
  | .connError =>
      .error (.redisConnError "Failed to update transaction status: connection refused")

/-- The status record returned by a successful
`get_transaction_status`: `status`, `updated_at`, and the metadata
dictionary parsed from its serialized form. -/
structure StatusRecord where
  status : String
  updated_at : Nat
  metadata : Meta
  deriving Repr, DecidableEq

/-- `BaseAudioService.get_transaction_status(transaction_id)`: raises
`TransactionNotFoundError` when the key does not exist, parses the
stored metadata (degrading a parse failure to `{}`), and re-raises any
Redis exception as `RedisConnectionError`. -/
def get_transaction_status (t : Tracker) (tid : String) (beh : ReadBeh) :
    Except PyErr StatusRecord :=
  match beh with
  | .connError =>
      .error (.redisConnError "Failed to get transaction status: connection refused")
  | .ok =>
      match lookupTid t.data tid with
      | none => .error (.transactionNotFound tid)
      | some r =>
          .ok { status := r.status, updated_at := r.updated_at,
                metadata := jsonLoads r.metadata }

/-- `BaseAudioService.save_file`: delegates to the storage service and
wraps any failure into `StorageError`.  The oracle is the blob store's
outcome: the saved path, or the error message of the raised exception. -/
def save_file (saveOut : Except String String) : Except PyErr String :=
  match saveOut with
  | .ok path => .ok path
  | .error msg => .error (.storageError ("Failed to save file: " ++ msg))

/-- The decoded audio as loaded by `librosa.load`: its duration in
seconds, sample rate, and whether `len(y.shape) > 1`. -/
structure AudioData where
  duration : Rat
  sampleRate : Nat
  multiChannel : Bool
  deriving Repr, DecidableEq

/-- The result dictionary built by a successful
`BaseAudioService.process_audio`. -/
structure ProcResult where
  duration : Rat
  sampleRate : Nat
  channels : Nat
  processedPath : String
  status : String
  deriving Repr, DecidableEq

/-- `BaseAudioService.process_audio(file_path)`: load (failure becomes
`ProcessingError`), compute duration (failure becomes
`ProcessingError`), raise `AudioDurationError(duration, max)` when the
duration exceeds `config.max_duration_seconds`, preprocess (failure
becomes `ProcessingError`), save the processed audio (failure becomes
`StorageError`), and return the result dictionary with
`status = "completed"`. -/
def process_audio (maxDurationSeconds : Rat)
    (load : Except String AudioData) (durCalcOk : Bool)
    (preprocess : Except String Unit) (saveProcessed : Except String String) :
    Except PyErr ProcResult :=
  match load with
  | .error e => .error (.processingError ("Failed to load audio file: " ++ e))
  | .ok a =>
      if !durCalcOk then
        .error (.processingError "Failed to get audio duration")
      else if a.duration > maxDurationSeconds then
        .error (.audioDurationError a.duration maxDurationSeconds)
      else
        match preprocess with
        | .error e => .error (.processingError ("Failed to preprocess audio: " ++ e))
        | .ok _ =>
            match saveProcessed with
            | .error e => .error (.storageError ("Failed to save processed audio: " ++ e))
            | .ok path =>
                .ok { duration := a.duration, sampleRate := a.sampleRate,
                      channels := if a.multiChannel then 2 else 1,
                      processedPath := path, status := "completed" }

/-- The metadata dictionary passed to the final status write of
`process_audio_background` (the `result` dict of `process_audio`). -/
def resultMeta (r : ProcResult) : Meta :=
  [("duration", .jnum r.duration), ("sample_rate", .jnum r.sampleRate),
   ("channels", .jnum r.channels), ("processed_path", .jstr r.processedPath),
   ("status", .jstr r.status)]

/-- The metadata `{"error": str(e)}` written by the exception handler of
`process_audio_background`. -/
def errorMeta (e : PyErr) : Meta := [("error", .jstr (errStr e))]

/-- Oracles for one run of `process_audio_background`: behaviour of the
three possible status writes, their timestamps, the outcome of
`process_audio`, and whether `auth_service.update_user_transactions`
succeeds. -/
structure BgOracle where
  wProcessing : WriteBeh
  wFinal : WriteBeh
  wError : WriteBeh
  nowProcessing : Nat
  nowFinal : Nat
  nowError : Nat
  procOut : Except PyErr ProcResult
  notifyOk : Bool
  deriving Repr

/-- The `except` handler of `process_audio_background`: writes status
`"error"` with `{"error": str(e)}`; if that write itself raises, the
exception escapes the task (second component). -/
def bgHandleErr (t : Tracker) (tid : String) (e : PyErr)
    (beh : WriteBeh) (now : Nat) : Tracker × Option PyErr :=
  match update_transaction_status t tid "error" (some (errorMeta e)) now beh with
  | .ok t' => (t', none)
  | .error e' => (t, some e')

/-- `process_audio_background(transaction_id, file_path, user_id)` from
`app/routes/audio.py`: write `"processing"`, run `process_audio`, write
the result's status with the result as metadata, then notify the user
history (`update_user_transactions`, which raises `AuthenticationError`
on failure); any exception from any of these steps is caught by the
single `except`, which writes status `"error"`.  Returns the final
tracker state and the exception escaping the task, if any. -/
def process_audio_background (t : Tracker) (tid : String) (o : BgOracle) :
    Tracker × Option PyErr :=
  match update_transaction_status t tid "processing" none o.nowProcessing o.wProcessing with
  | .error e => bgHandleErr t tid e o.wError o.nowError
  | .ok t1 =>
      match o.procOut with
      | .error e => bgHandleErr t1 tid e o.wError o.nowError
      | .ok result =>
          match update_transaction_status t1 tid result.status
              (some (resultMeta result)) o.nowFinal o.wFinal with
          | .error e => bgHandleErr t1 tid e o.wError o.nowError
          | .ok t2 =>
              if o.notifyOk then (t2, none)
              else bgHandleErr t2 tid (.authError "Failed to update user data")
                     o.wError o.nowError

/-- Exceptions re-raised unchanged by `upload_audio`'s
`except (FileValidationError, StorageError, ProcessingError): raise`
(`AudioDurationError`, `FileSizeError` and `FileFormatError` are
subclasses of `FileValidationError`); everything else falls to the
catch-all and is wrapped in a `ProcessingError`. -/
def isUploadPassthrough : PyErr → Bool
  | .fileSizeError _ _ => true
  | .fileFormatError _ => true
  | .audioDurationError _ _ => true
  | .processingError _ => true
  | .storageError _ => true
  | .transactionNotFound _ => false
  | .redisConnError _ => false
  | .authError _ => false

/-- The re-raise policy of `upload_audio`'s exception handlers. -/
def uploadWrap (e : PyErr) : PyErr :=
  if isUploadPassthrough e then e
  else .processingError ("Unexpected error during file upload: " ++ errStr e)

/-- The initial metadata written with status `"pending"` by
`upload_audio`. -/
def pendingMeta (filename userId : String) (uploadTime : Nat) : Meta :=
  [("filename", .jstr filename), ("user_id", .jstr userId),
   ("upload_time", .jnum uploadTime)]

/-- Oracles for one call of `upload_audio`: the validation outcome (the
file content, abstracted to a string of bytes), the generated
`uuid.uuid4()` transaction id, the behaviour and timestamp of the
pending write, and the blob-store outcome for the raw file. -/
structure UploadOracle where
  valid : Except PyErr String
  tid : String
  wPending : WriteBeh
  nowPending : Nat
  saveOut : Except String String
  deriving Repr

/-- What an `upload_audio` call leaves behind: the returned transaction
id or the raised exception, the tracker state, and the scheduled
background task `(transaction_id, file_path, user_id)`, if any. -/
structure UploadOutcome where
  result : Except PyErr String
  tracker : Tracker
  scheduled : Option (String × String × String)
  deriving Repr

/-- `upload_audio` from `app/routes/audio.py`: validate the file,
generate a transaction id, write status `"pending"` with
`{filename, user_id, upload_time}`, save the raw file via
`save_file`, schedule `process_audio_background`, and return the
transaction id; exceptions follow `uploadWrap`. -/
def upload_audio (t : Tracker) (filename userId : String) (o : UploadOracle) :
    UploadOutcome :=
  match o.valid with
  | .error e => ⟨.error (uploadWrap e), t, none⟩
  | .ok _content =>
      match update_transaction_status t o.tid "pending"
          (some (pendingMeta filename userId o.nowPending)) o.nowPending o.wPending with
      | .error e => ⟨.error (uploadWrap e), t, none⟩
      | .ok t1 =>
          match save_file o.saveOut with
          | .error e => ⟨.error (uploadWrap e), t1, none⟩
          | .ok path => ⟨.ok o.tid, t1, some (o.tid, path, userId)⟩

/-- A full lifetime of one transaction: the upload call followed by the
background task it scheduled (if any). -/
def lifecycle (t : Tracker) (filename userId : String)
    (uo : UploadOracle) (bo : BgOracle) : Tracker :=
  match (upload_audio t filename userId uo).scheduled with
  | none => (upload_audio t filename userId uo).tracker
  | some (tid, _path, _uid) =>
      (process_audio_background (upload_audio t filename userId uo).tracker tid bo).1

/-- The statuses a write history holds for one transaction id, in
write order. -/
def histStatuses (h : List (String × String)) (tid : String) : List String :=
  (h.filter (fun p => p.1 = tid)).map (fun p => p.2)

/-- The statuses successfully persisted for one transaction id, in
write order. -/
def tidHist (t : Tracker) (tid : String) : List String :=
  histStatuses t.hist tid

/-- The ordering `pending < processing < {completed, error}` of the
spec's monotonicity invariant. -/
def statusRank : String → Nat
  | "pending" => 0
  | "processing" => 1
  | "completed" => 2
  | "error" => 2
  | _ => 3

/-- The status carried by a read result, `none` when the read raised. -/
def statusOf (r : Except PyErr StatusRecord) : Option String :=
  match r with
  | .ok rec => some rec.status
  | .error _ => none

/-- The metadata carried by a read result, `none` when the read raised. -/
def metaOf (r : Except PyErr StatusRecord) : Option Meta :=
  match r with
  | .ok rec => some rec.metadata
  | .error _ => none

/-- Whether a tracker-call outcome is the `StoreUnavailable` failure
(`RedisConnectionError`). -/
def isStoreUnavailable {α : Type} (r : Except PyErr α) : Bool :=
  match r with
  | .error (.redisConnError _) => true
  | _ => false

/-- Whether a read outcome is the `NotFound` failure
(`TransactionNotFoundError`). -/
def isNotFound {α : Type} (r : Except PyErr α) : Bool :=
  match r with
  | .error (.transactionNotFound _) => true
  | _ => false

/-- Whether an outcome is a raised `AudioDurationError`. -/
def isDurationError {α : Type} (r : Except PyErr α) : Bool :=
  match r with
  | .error (.audioDurationError _ _) => true
  | _ => false

/-- Whether an outcome is a raised `StorageError`. -/
def isStorageError {α : Type} (r : Except PyErr α) : Bool :=
  match r with
  | .error (.storageError _) => true
  | _ => false

/-- The monotonicity order on statuses:
`pending < processing < {completed, error}`. -/
def statusLe (a b : String) : Prop := statusRank a ≤ statusRank b

instance : DecidableRel statusLe := fun _ _ => Nat.decLe _ _

instance : IsTrans String statusLe := ⟨fun _ _ _ => Nat.le_trans⟩

/-- A successful `process_audio` always returns `status = "completed"`. -/
theorem process_audio_status_eq (maxD : Rat) (load : Except String AudioData)
    (dOk : Bool) (prep : Except String Unit) (sv : Except String String)
    (r : ProcResult) (h : process_audio maxD load dOk prep sv = .ok r) :
    r.status = "completed" := by
  unfold process_audio at h
  cases load with
  | error e => exact absurd h (by simp)
  | ok a =>
      cases dOk with
      | false => exact absurd h (by simp)
      | true =>
          simp only [Bool.not_true, Bool.false_eq_true, if_false] at h
          split at h
          · exact absurd h (by simp)
          · cases prep with
            | error e => exact absurd h (by simp)
            | ok u =>
                cases sv with
                | error e => exact absurd h (by simp)
                | ok p =>
                    simp only [Except.ok.injEq] at h
                    rw [← h]

/-- C5 — counterexample.  The tracker already holds a record for
`"t1"` with status `"pending"`; a write of `"processing"` whose
`hmset` is silently lost still passes the read-back check (which only
tests that the key is nonempty) and the call reports success, even
though the store still holds the old `"pending"` record — the write's
persistence was not confirmed, yet no `StoreUnavailable` is raised. -/
theorem C5_lost_write_reported_ok :
    update_transaction_status
        ⟨[("t1", ⟨"pending", 0, .serialized []⟩)], [("t1", "pending")]⟩
        "t1" "processing" none 5 .lostWrite
      = .ok ⟨[("t1", ⟨"pending", 0, .serialized []⟩)], [("t1", "pending")]⟩ ∧
    statusOf (get_transaction_status
        ⟨[("t1", ⟨"pending", 0, .serialized []⟩)], [("t1", "pending")]⟩ "t1" .ok)
      = some "pending" := by
  constructor <;> rfl

/-- C5 — amended.  A connectivity failure during the write always
raises `StoreUnavailable`; a silently lost write to an id with no
existing record is caught by the read-back (the `hgetall` comes back
empty) and raises `StoreUnavailable`; but a silently lost write to an
id that already has a record passes the read-back check — which only
verifies that the key is nonempty — and is reported as success with
the store unchanged. -/
theorem C5_write_confirmation (t : Tracker) (tid s : String)
    (m : Option Meta) (now : Nat) :
    isStoreUnavailable (update_transaction_status t tid s m now .connError) = true ∧
    (lookupTid t.data tid = none →
      isStoreUnavailable (update_transaction_status t tid s m now .lostWrite) = true) ∧
    (∀ r, lookupTid t.data tid = some r →
      update_transaction_status t tid s m now .lostWrite = .ok t) := by
  refine ⟨rfl, fun h => ?_, fun r h => ?_⟩
  · simp [update_transaction_status, h, isStoreUnavailable]
  · simp [update_transaction_status, h]

/-- C5 — witness for the amended theorem. -/
theorem C5_write_confirmation_witness :
    lookupTid ([] : List (String × RecordHash)) "t1" = none ∧
    isStoreUnavailable
      (update_transaction_status ⟨[], []⟩ "t1" "pending" none 0 .lostWrite) = true := by
  exact ⟨rfl, (C5_write_confirmation ⟨[], []⟩ "t1" "pending" none 0).2.1 rfl⟩

/-- C6 — confirmed.  A read of an id that was never written (with the
store reachable) fails with `TransactionNotFoundError`; a read of an id
that holds a record never fails with `NotFound` (under any store
behaviour); and a read outcome is never both `NotFound` and
`StoreUnavailable` — the two failures are distinct. -/
theorem C6_notfound_semantics (t : Tracker) (tid : String) :
    (lookupTid t.data tid = none →
      get_transaction_status t tid .ok = .error (.transactionNotFound tid)) ∧
    (∀ r, lookupTid t.data tid = some r →
      ∀ beh, isNotFound (get_transaction_status t tid beh) = false) ∧
    (∀ beh, isNotFound (get_transaction_status t tid beh) = true →
      isStoreUnavailable (get_transaction_status t tid beh) = false) := by
  refine ⟨fun h => ?_, fun r h beh => ?_, fun beh h => ?_⟩
  · simp [get_transaction_status, h]
  · cases beh with
    | connError => rfl
    | ok => simp [get_transaction_status, h, isNotFound]
  · cases beh with
    | connError => simp [get_transaction_status, isNotFound] at h
    | ok =>
        cases hl : lookupTid t.data tid with
        | none => simp [get_transaction_status, hl, isStoreUnavailable]
        | some r => simp [get_transaction_status, hl, isNotFound] at h

/-- C6 — witness. -/
theorem C6_notfound_semantics_witness :
    get_transaction_status ⟨[], []⟩ "t1" .ok = .error (.transactionNotFound "t1") ∧
    isNotFound (get_transaction_status
      ⟨[("t2", ⟨"pending", 0, .serialized []⟩)], []⟩ "t2" .ok) = false := by
  exact ⟨(C6_notfound_semantics ⟨[], []⟩ "t1").1 rfl,
    (C6_notfound_semantics ⟨[("t2", ⟨"pending", 0, .serialized []⟩)], []⟩ "t2").2.1
      ⟨"pending", 0, .serialized []⟩ rfl .ok⟩

/-- C7 — confirmed.  When the stored metadata string is malformed
(`json.loads` raises), `get_transaction_status` still succeeds and
returns the stored status and `updated_at` with metadata degraded to
the empty dictionary. -/
theorem C7_malformed_metadata_degrades (t : Tracker) (tid raw : String)
    (r : RecordHash) (hlook : lookupTid t.data tid = some r)
    (hmal : r.metadata = .malformed raw) :
    get_transaction_status t tid .ok = .ok ⟨r.status, r.updated_at, []⟩ := by
  simp [get_transaction_status, hlook, hmal, jsonLoads]

/-- C7 — witness. -/
theorem C7_malformed_metadata_degrades_witness :
    get_transaction_status
        ⟨[("t1", ⟨"completed", 7, .malformed "not json"⟩)], []⟩ "t1" .ok
      = .ok ⟨"completed", 7, []⟩ := by
  exact C7_malformed_metadata_degrades
    ⟨[("t1", ⟨"completed", 7, .malformed "not json"⟩)], []⟩ "t1" "not json"
    ⟨"completed", 7, .malformed "not json"⟩ rfl rfl

/-- C9 — confirmed.  Writing a status with a JSON-serializable
metadata dictionary and reading the same id back returns a metadata
dictionary equal to the one written, and the written status. -/
theorem C9_metadata_roundtrip (t t' : Tracker) (tid s : String) (m : Meta)
    (now : Nat)
    (h : update_transaction_status t tid s (some m) now .ok = .ok t') :
    metaOf (get_transaction_status t' tid .ok) = some m ∧
    statusOf (get_transaction_status t' tid .ok) = some s := by
  simp only [update_transaction_status, Except.ok.injEq] at h
  subst h
  simp [get_transaction_status, lookupTid, jsonLoads, metaOf, statusOf]

/-- C9 — witness, at the spec's example dictionary `{"a": 1}`. -/
theorem C9_metadata_roundtrip_witness :
    metaOf (get_transaction_status
        ⟨[("t1", ⟨"completed", 3, .serialized [("a", .jnum 1)]⟩)], [("t1", "completed")]⟩
        "t1" .ok)
      = some [("a", .jnum 1)] := by
  exact (C9_metadata_roundtrip ⟨[], []⟩ _ "t1" "completed" [("a", .jnum 1)] 3 rfl).1

/-- C10 — confirmed.  When the pending write succeeds but the
blob-store save of the raw file fails, `upload_audio` raises the
`StorageError`, schedules no background task, and leaves the pending
record in place: a read still returns status `"pending"` with the
original upload metadata. -/
theorem C10_blob_failure_leaves_pending (t : Tracker)
    (filename userId msg content : String) (o : UploadOracle)
    (hvalid : o.valid = .ok content) (hw : o.wPending = .ok)
    (hsave : o.saveOut = .error msg) :
    isStorageError (upload_audio t filename userId o).result = true ∧
    (upload_audio t filename userId o).scheduled = none ∧
    statusOf (get_transaction_status (upload_audio t filename userId o).tracker
      o.tid .ok) = some "pending" ∧
    metaOf (get_transaction_status (upload_audio t filename userId o).tracker
      o.tid .ok) = some (pendingMeta filename userId o.nowPending) := by
  simp [upload_audio, hvalid, hw, hsave, update_transaction_status, save_file,
    uploadWrap, isUploadPassthrough, isStorageError, get_transaction_status,
    lookupTid, jsonLoads, statusOf, metaOf]

/-- C10 — witness. -/
theorem C10_blob_failure_leaves_pending_witness :
    isStorageError (upload_audio ⟨[], []⟩ "f.wav" "u1"
      ⟨.ok "bytes", "t1", .ok, 4, .error "disk full"⟩).result = true ∧
    statusOf (get_transaction_status
      (upload_audio ⟨[], []⟩ "f.wav" "u1"
        ⟨.ok "bytes", "t1", .ok, 4, .error "disk full"⟩).tracker "t1" .ok)
      = some "pending" := by
  refine ⟨?_, ?_⟩
  · exact (C10_blob_failure_leaves_pending ⟨[], []⟩ "f.wav" "u1" "disk full" "bytes"
      ⟨.ok "bytes", "t1", .ok, 4, .error "disk full"⟩ rfl rfl rfl).1
  · exact (C10_blob_failure_leaves_pending ⟨[], []⟩ "f.wav" "u1" "disk full" "bytes"
      ⟨.ok "bytes", "t1", .ok, 4, .error "disk full"⟩ rfl rfl rfl).2.2.1

/-- C1 — counterexample.  A run in which processing succeeds and the
final write persists status `"completed"`, but the user-history
notification then fails: the single `except` of
`process_audio_background` catches the `AuthenticationError` and
overwrites the status with `"error"`.  A read after the run returns
`"error"`, not the terminal `"completed"` written before the
notification was attempted (the write history shows `"completed"` was
indeed persisted before being overwritten). -/
theorem C1_notify_failure_flips_status :
    statusOf (get_transaction_status
      (process_audio_background
        ⟨[("t1", ⟨"pending", 0, .serialized []⟩)], [("t1", "pending")]⟩ "t1"
        ⟨.ok, .ok, .ok, 1, 2, 3, .ok ⟨10, 22050, 1, "p.wav", "completed"⟩, false⟩).1
      "t1" .ok) = some "error" ∧
    (process_audio_background
        ⟨[("t1", ⟨"pending", 0, .serialized []⟩)], [("t1", "pending")]⟩ "t1"
        ⟨.ok, .ok, .ok, 1, 2, 3, .ok ⟨10, 22050, 1, "p.wav", "completed"⟩, false⟩).1.hist
      = [("t1", "pending"), ("t1", "processing"), ("t1", "completed"), ("t1", "error")] := by
  constructor <;> rfl

/-- C1 — amended.  When background processing reaches `"completed"`
(all status writes persisting) and the user-history notification then
fails, the catch-all handler overwrites the transaction's stored
status with `"error"` and metadata `{"error": str(e)}`: the terminal
status read after the run is `"error"`, with `"completed"` persisted
immediately before it in the write history. -/
theorem C1_notify_failure_overwrites (t : Tracker) (tid : String)
    (o : BgOracle) (r : ProcResult)
    (hw1 : o.wProcessing = .ok) (hw2 : o.wFinal = .ok) (hw3 : o.wError = .ok)
    (hp : o.procOut = .ok r) (hs : r.status = "completed")
    (hn : o.notifyOk = false) :
    statusOf (get_transaction_status (process_audio_background t tid o).1 tid .ok)
      = some "error" ∧
    (process_audio_background t tid o).1.hist
      = t.hist ++ [(tid, "processing"), (tid, "completed"),
          (tid, "error")] := by
  simp [process_audio_background, hw1, hw2, hw3, hp, hs, hn,
    update_transaction_status, bgHandleErr, get_transaction_status, lookupTid,
    statusOf]

/-- C1 — witness for the amended theorem. -/
theorem C1_notify_failure_overwrites_witness :
    statusOf (get_transaction_status
      (process_audio_background ⟨[], []⟩ "t1"
        ⟨.ok, .ok, .ok, 1, 2, 3, .ok ⟨10, 22050, 1, "p.wav", "completed"⟩, false⟩).1
      "t1" .ok) = some "error" := by
  exact (C1_notify_failure_overwrites ⟨[], []⟩ "t1"
    ⟨.ok, .ok, .ok, 1, 2, 3, .ok ⟨10, 22050, 1, "p.wav", "completed"⟩, false⟩
    ⟨10, 22050, 1, "p.wav", "completed"⟩ rfl rfl rfl rfl rfl rfl).1

/-- C2 — confirmed.  When every write of the status-write mechanism
succeeds and the processing outcome is whatever `process_audio`
produces (all its exceptions being caught by the handler), a run of
`process_audio_background` terminates with the stored status equal to
`"completed"` or `"error"` — never `"pending"` or `"processing"` —
and no exception escapes the task. -/
theorem C2_terminal_status (t : Tracker) (tid : String) (o : BgOracle)
    (maxD : Rat) (load : Except String AudioData) (dOk : Bool)
    (prep : Except String Unit) (sv : Except String String)
    (hw1 : o.wProcessing = .ok) (hw2 : o.wFinal = .ok) (hw3 : o.wError = .ok)
    (hp : o.procOut = process_audio maxD load dOk prep sv) :
    (statusOf (get_transaction_status (process_audio_background t tid o).1 tid .ok)
        = some "completed" ∨
     statusOf (get_transaction_status (process_audio_background t tid o).1 tid .ok)
        = some "error") ∧
    (process_audio_background t tid o).2 = none := by
  cases hres : process_audio maxD load dOk prep sv with
  | error e =>
      rw [hres] at hp
      refine ⟨Or.inr ?_, ?_⟩ <;>
        simp [process_audio_background, hw1, hw3, hp, update_transaction_status,
          bgHandleErr, get_transaction_status, lookupTid, statusOf]
  | ok r =>
      have hst := process_audio_status_eq maxD load dOk prep sv r hres
      rw [hres] at hp
      cases hn : o.notifyOk with
      | true =>
          refine ⟨Or.inl ?_, ?_⟩ <;>
            simp [process_audio_background, hw1, hw2, hp, hn, hst,
              update_transaction_status, bgHandleErr, get_transaction_status,
              lookupTid, statusOf]
      | false =>
          refine ⟨Or.inr ?_, ?_⟩ <;>
            simp [process_audio_background, hw1, hw2, hw3, hp, hn,
              update_transaction_status, bgHandleErr, get_transaction_status,
              lookupTid, statusOf]

/-- C2 — witness. -/
theorem C2_terminal_status_witness :
    statusOf (get_transaction_status
        (process_audio_background ⟨[], []⟩ "t1"
          ⟨.ok, .ok, .ok, 1, 2, 3,
            process_audio 300 (.ok ⟨10, 22050, false⟩) true (.ok ()) (.ok "p.wav"),
            true⟩).1 "t1" .ok) = some "completed" ∨
    statusOf (get_transaction_status
        (process_audio_background ⟨[], []⟩ "t1"
          ⟨.ok, .ok, .ok, 1, 2, 3,
            process_audio 300 (.ok ⟨10, 22050, false⟩) true (.ok ()) (.ok "p.wav"),
            true⟩).1 "t1" .ok) = some "error" := by
  exact (C2_terminal_status ⟨[], []⟩ "t1"
    ⟨.ok, .ok, .ok, 1, 2, 3,
      process_audio 300 (.ok ⟨10, 22050, false⟩) true (.ok ()) (.ok "p.wav"), true⟩
    300 (.ok ⟨10, 22050, false⟩) true (.ok ()) (.ok "p.wav")
    rfl rfl rfl rfl).1

/-- C3 — confirmed.  For a fresh transaction id, whenever
`upload_audio` returns successfully with a transaction id, a status
read of that id on the state the call left behind (before the
scheduled background task runs) succeeds with status `"pending"` and
is not a `NotFound` failure: the pending record was written and
confirmed before the task was scheduled and the response returned. -/
theorem C3_pending_before_schedule (t : Tracker) (filename userId tid : String)
    (o : UploadOracle)
    (hfresh : lookupTid t.data o.tid = none)
    (hret : (upload_audio t filename userId o).result = .ok tid) :
    tid = o.tid ∧
    statusOf (get_transaction_status (upload_audio t filename userId o).tracker
      tid .ok) = some "pending" ∧
    isNotFound (get_transaction_status (upload_audio t filename userId o).tracker
      tid .ok) = false := by
  cases hv : o.valid with
  | error e => simp [upload_audio, hv] at hret
  | ok content =>
      cases hw : o.wPending with
      | lostWrite =>
          simp [upload_audio, hv, hw, update_transaction_status, hfresh] at hret
      | connError =>
          simp [upload_audio, hv, hw, update_transaction_status] at hret
      | ok =>
          cases hsv : o.saveOut with
          | error msg =>
              simp [upload_audio, hv, hw, hsv, update_transaction_status,
                save_file] at hret
          | ok path =>
              have htid : tid = o.tid := by
                simpa [upload_audio, hv, hw, hsv, update_transaction_status,
                  save_file] using hret.symm
              subst htid
              refine ⟨rfl, ?_, ?_⟩ <;>
                simp [upload_audio, hv, hw, hsv, update_transaction_status,
                  save_file, get_transaction_status, lookupTid, statusOf,
                  isNotFound]

/-- C3 — witness. -/
theorem C3_pending_before_schedule_witness :
    statusOf (get_transaction_status
      (upload_audio ⟨[], []⟩ "f.wav" "u1"
        ⟨.ok "bytes", "t1", .ok, 4, .ok "up/f.wav"⟩).tracker "t1" .ok)
      = some "pending" := by
  exact (C3_pending_before_schedule ⟨[], []⟩ "f.wav" "u1" "t1"
    ⟨.ok "bytes", "t1", .ok, 4, .ok "up/f.wav"⟩ rfl rfl).2.1

/-- C8 — confirmed.  When decoding succeeds and the computed duration
exceeds the configured maximum, `process_audio` fails with
`AudioDurationError(duration, max)` carrying both values regardless of
the later preprocessing/save steps (they are skipped), and a
background run on that outcome leaves the transaction at status
`"error"` with metadata `{"error": <message naming both durations>}`;
when the duration is at or under the maximum, this validation does not
fail. -/
theorem C8_duration_validation (maxD : Rat) (a : AudioData)
    (prep : Except String Unit) (sv : Except String String)
    (t : Tracker) (tid : String) (o : BgOracle)
    (hw1 : o.wProcessing = .ok) (hw3 : o.wError = .ok)
    (hp : o.procOut = process_audio maxD (.ok a) true prep sv) :
    (a.duration > maxD →
      process_audio maxD (.ok a) true prep sv
        = .error (.audioDurationError a.duration maxD)) ∧
    (a.duration > maxD →
      statusOf (get_transaction_status (process_audio_background t tid o).1 tid .ok)
          = some "error" ∧
      metaOf (get_transaction_status (process_audio_background t tid o).1 tid .ok)
          = some (errorMeta (.audioDurationError a.duration maxD))) ∧
    (a.duration ≤ maxD →
      isDurationError (process_audio maxD (.ok a) true prep sv) = false) := by
  refine ⟨fun hover => ?_, fun hover => ?_, fun hunder => ?_⟩
  · simp [process_audio, hover]
  · have hres : process_audio maxD (.ok a) true prep sv
        = .error (.audioDurationError a.duration maxD) := by
      simp [process_audio, hover]
    rw [hres] at hp
    constructor <;>
      simp [process_audio_background, hw1, hw3, hp, update_transaction_status,
        bgHandleErr, get_transaction_status, lookupTid, statusOf, metaOf, jsonLoads]
  · have hnot : ¬ a.duration > maxD := not_lt.mpr hunder
    cases prep with
    | error e => simp [process_audio, hnot, isDurationError]
    | ok u =>
        cases sv with
        | error e => simp [process_audio, hnot, isDurationError]
        | ok p => simp [process_audio, hnot, isDurationError]

/-- C8 — witness: a 301-second file against a 300-second maximum is
rejected with both durations in the error, and the background run
records the violation; a 300-second file passes. -/
theorem C8_duration_validation_witness :
    ((301 : Rat) > 300 →
      process_audio 300 (.ok ⟨301, 22050, false⟩) true (.ok ()) (.ok "p.wav")
        = .error (.audioDurationError 301 300)) ∧
    ((300 : Rat) ≤ 300 →
      isDurationError
        (process_audio 300 (.ok ⟨300, 22050, false⟩) true (.ok ()) (.ok "p.wav"))
        = false) := by
  constructor
  · exact fun h => (C8_duration_validation 300 ⟨301, 22050, false⟩ (.ok ()) (.ok "p.wav")
      ⟨[], []⟩ "t1"
      ⟨.ok, .ok, .ok, 1, 2, 3,
        process_audio 300 (.ok ⟨301, 22050, false⟩) true (.ok ()) (.ok "p.wav"), true⟩
      rfl rfl rfl).1 h
  · exact fun h => (C8_duration_validation 300 ⟨300, 22050, false⟩ (.ok ()) (.ok "p.wav")
      ⟨[], []⟩ "t1"
      ⟨.ok, .ok, .ok, 1, 2, 3,
        process_audio 300 (.ok ⟨300, 22050, false⟩) true (.ok ()) (.ok "p.wav"), true⟩
      rfl rfl rfl).2.2 h

/-- One status write appends the written `(id, status)` pair to the
persisted history on success, and appends nothing when the write was
silently lost but still reported as success. -/
theorem update_hist_cases (t t' : Tracker) (tid s : String) (m : Option Meta)
    (now : Nat) (beh : WriteBeh)
    (h : update_transaction_status t tid s m now beh = .ok t') :
    t'.hist = t.hist ++ [(tid, s)] ∨ t'.hist = t.hist := by
  cases beh with
  | ok =>
      simp only [update_transaction_status, Except.ok.injEq] at h
      subst h
      exact Or.inl rfl
  | lostWrite =>
      cases hl : lookupTid t.data tid with
      | none => simp [update_transaction_status, hl] at h
      | some r =>
          simp only [update_transaction_status, hl, Except.ok.injEq] at h
          subst h
          exact Or.inr rfl
  | connError => simp [update_transaction_status] at h

/-- The error handler of the background task appends at most one
`(id, "error")` entry to the persisted history. -/
theorem bgHandleErr_hist (t : Tracker) (tid : String) (e : PyErr)
    (beh : WriteBeh) (now : Nat) :
    ∃ L, (bgHandleErr t tid e beh now).1.hist = t.hist ++ L ∧
      List.Sublist L [(tid, "error")] := by
  cases beh with
  | ok => exact ⟨[(tid, "error")], rfl, List.Sublist.refl _⟩
  | lostWrite =>
      cases hl : lookupTid t.data tid with
      | none =>
          exact ⟨[], by simp [bgHandleErr, update_transaction_status, hl],
            List.nil_sublist _⟩
      | some r =>
          exact ⟨[], by simp [bgHandleErr, update_transaction_status, hl],
            List.nil_sublist _⟩
  | connError =>
      exact ⟨[], by simp [bgHandleErr, update_transaction_status],
        List.nil_sublist _⟩

/-- A background run appends to the persisted history a subsequence of
`processing, completed, error` for its transaction id (assuming, as
`process_audio` guarantees, that a successful result carries status
`"completed"`). -/
theorem bg_hist_sublist (t : Tracker) (tid : String) (o : BgOracle)
    (hc : ∀ r, o.procOut = .ok r → r.status = "completed") :
    ∃ L, (process_audio_background t tid o).1.hist = t.hist ++ L ∧
      List.Sublist L [(tid, "processing"), (tid, "completed"), (tid, "error")] := by
  have serr : ∀ L : List (String × String), List.Sublist L [(tid, "error")] →
      List.Sublist L [(tid, "processing"), (tid, "completed"), (tid, "error")] :=
    fun L h =>
      h.trans (List.Sublist.cons _ (List.Sublist.cons _ (List.Sublist.refl _)))
  have serr2 : ∀ L : List (String × String), List.Sublist L [(tid, "error")] →
      List.Sublist L [(tid, "completed"), (tid, "error")] :=
    fun L h => h.trans (List.Sublist.cons _ (List.Sublist.refl _))
  have scons2 : List.Sublist [(tid, "completed")] [(tid, "completed"), (tid, "error")] :=
    List.Sublist.cons₂ _ (List.nil_sublist _)
  unfold process_audio_background
  cases h1 : update_transaction_status t tid "processing" none
      o.nowProcessing o.wProcessing with
  | error e =>
      obtain ⟨L, hL, hs⟩ := bgHandleErr_hist t tid e o.wError o.nowError
      exact ⟨L, by simp [hL], serr L hs⟩
  | ok t1 =>
      rcases update_hist_cases t t1 tid "processing" none o.nowProcessing
          o.wProcessing h1 with hh1 | hh1
      case inl =>
        cases hp : o.procOut with
        | error e =>
            obtain ⟨L, hL, hs⟩ := bgHandleErr_hist t1 tid e o.wError o.nowError
            exact ⟨(tid, "processing") :: L, by simp [hL, hh1],
              List.Sublist.cons₂ _ (serr2 L hs)⟩
        | ok r =>
            have hr := hc r hp
            cases h2 : update_transaction_status t1 tid r.status
                (some (resultMeta r)) o.nowFinal o.wFinal with
            | error e =>
                obtain ⟨L, hL, hs⟩ := bgHandleErr_hist t1 tid e o.wError o.nowError
                exact ⟨(tid, "processing") :: L, by simp [hL, hh1, h2],
                  List.Sublist.cons₂ _ (serr2 L hs)⟩
            | ok t2 =>
                rcases update_hist_cases t1 t2 tid r.status (some (resultMeta r))
                    o.nowFinal o.wFinal h2 with hh2 | hh2
                case inl =>
                  cases hn : o.notifyOk with
                  | true =>
                      refine ⟨[(tid, "processing"), (tid, r.status)],
                        by simp [hh2, hh1, h2], ?_⟩
                      rw [hr]
                      exact List.Sublist.cons₂ _ scons2
                  | false =>
                      obtain ⟨L, hL, hs⟩ := bgHandleErr_hist t2 tid
                        (.authError "Failed to update user data") o.wError o.nowError
                      refine ⟨(tid, "processing") :: (tid, r.status) :: L,
                        by simp [hL, hh2, hh1, h2], ?_⟩
                      rw [hr]
                      exact List.Sublist.cons₂ _ (List.Sublist.cons₂ _ hs)
                case inr =>
                  cases hn : o.notifyOk with
                  | true =>
                      exact ⟨[(tid, "processing")], by simp [hh2, hh1, h2],
                        List.Sublist.cons₂ _ (List.nil_sublist _)⟩
                  | false =>
                      obtain ⟨L, hL, hs⟩ := bgHandleErr_hist t2 tid
                        (.authError "Failed to update user data") o.wError o.nowError
                      exact ⟨(tid, "processing") :: L, by simp [hL, hh2, hh1, h2],
                        List.Sublist.cons₂ _ (serr2 L hs)⟩
      case inr =>
        cases hp : o.procOut with
        | error e =>
            obtain ⟨L, hL, hs⟩ := bgHandleErr_hist t1 tid e o.wError o.nowError
            exact ⟨L, by simp [hL, hh1], serr L hs⟩
        | ok r =>
            have hr := hc r hp
            cases h2 : update_transaction_status t1 tid r.status
                (some (resultMeta r)) o.nowFinal o.wFinal with
            | error e =>
                obtain ⟨L, hL, hs⟩ := bgHandleErr_hist t1 tid e o.wError o.nowError
                exact ⟨L, by simp [hL, hh1, h2], serr L hs⟩
            | ok t2 =>
                rcases update_hist_cases t1 t2 tid r.status (some (resultMeta r))
                    o.nowFinal o.wFinal h2 with hh2 | hh2
                case inl =>
                  cases hn : o.notifyOk with
                  | true =>
                      refine ⟨[(tid, r.status)], by simp [hh2, hh1, h2], ?_⟩
                      rw [hr]
                      exact List.Sublist.cons _ scons2
                  | false =>
                      obtain ⟨L, hL, hs⟩ := bgHandleErr_hist t2 tid
                        (.authError "Failed to update user data") o.wError o.nowError
                      refine ⟨(tid, r.status) :: L, by simp [hL, hh2, hh1, h2], ?_⟩
                      rw [hr]
                      exact List.Sublist.cons _ (List.Sublist.cons₂ _ hs)
                case inr =>
                  cases hn : o.notifyOk with
                  | true =>
                      exact ⟨[], by simp [hh2, hh1, h2], List.nil_sublist _⟩
                  | false =>
                      obtain ⟨L, hL, hs⟩ := bgHandleErr_hist t2 tid
                        (.authError "Failed to update user data") o.wError o.nowError
                      exact ⟨L, by simp [hL, hh2, hh1, h2], serr L hs⟩

/-- The upload call appends to the persisted history a subsequence of
`pending` for the generated transaction id, and any task it schedules
carries exactly that id. -/
theorem upload_hist (t : Tracker) (filename userId : String) (o : UploadOracle) :
    ∃ L, (upload_audio t filename userId o).tracker.hist = t.hist ++ L ∧
      List.Sublist L [(o.tid, "pending")] ∧
      ∀ tid p u, (upload_audio t filename userId o).scheduled = some (tid, p, u) →
        tid = o.tid := by
  cases hv : o.valid with
  | error e =>
      exact ⟨[], by simp [upload_audio, hv], List.nil_sublist _,
        by simp [upload_audio, hv]⟩
  | ok content =>
      cases hw : o.wPending with
      | ok =>
          cases hsv : o.saveOut with
          | error msg =>
              exact ⟨[(o.tid, "pending")],
                by simp [upload_audio, hv, hw, hsv, update_transaction_status,
                  save_file],
                List.Sublist.refl _,
                by simp [upload_audio, hv, hw, hsv, update_transaction_status,
                  save_file]⟩
          | ok path =>
              refine ⟨[(o.tid, "pending")],
                by simp [upload_audio, hv, hw, hsv, update_transaction_status,
                  save_file],
                List.Sublist.refl _, fun tid p u h => ?_⟩
              simp [upload_audio, hv, hw, hsv, update_transaction_status,
                save_file] at h
              exact h.1.symm
      | lostWrite =>
          cases hl : lookupTid t.data o.tid with
          | none =>
              exact ⟨[], by simp [upload_audio, hv, hw, hl,
                  update_transaction_status],
                List.nil_sublist _,
                by simp [upload_audio, hv, hw, hl, update_transaction_status]⟩
          | some r =>
              cases hsv : o.saveOut with
              | error msg =>
                  exact ⟨[], by simp [upload_audio, hv, hw, hl, hsv,
                      update_transaction_status, save_file],
                    List.nil_sublist _,
                    by simp [upload_audio, hv, hw, hl, hsv,
                      update_transaction_status, save_file]⟩
              | ok path =>
                  refine ⟨[], by simp [upload_audio, hv, hw, hl, hsv,
                      update_transaction_status, save_file],
                    List.nil_sublist _, fun tid p u h => ?_⟩
                  simp [upload_audio, hv, hw, hl, hsv,
                    update_transaction_status, save_file] at h
                  exact h.1.symm
      | connError =>
          exact ⟨[], by simp [upload_audio, hv, hw, update_transaction_status],
            List.nil_sublist _,
            by simp [upload_audio, hv, hw, update_transaction_status]⟩

/-- `histStatuses` distributes over history concatenation. -/
theorem histStatuses_append (h₁ h₂ : List (String × String)) (tid : String) :
    histStatuses (h₁ ++ h₂) tid = histStatuses h₁ tid ++ histStatuses h₂ tid := by
  simp [histStatuses, List.filter_append]

/-- `histStatuses` is monotone with respect to sublists. -/
theorem histStatuses_sublist (h₁ h₂ : List (String × String)) (tid : String)
    (h : List.Sublist h₁ h₂) : List.Sublist (histStatuses h₁ tid) (histStatuses h₂ tid) :=
  (h.filter _).map _

/-- C4 — confirmed.  Over a full lifetime of one transaction — the
upload call followed by the background task it scheduled, under any
store/decode/notify behaviour — the sequence of statuses persisted for
that (fresh) transaction id is monotone with respect to
`pending < processing < {completed, error}`: no write moves the status
back from `processing` to `pending`, nor from a terminal state back to
`pending` or `processing`. -/
theorem C4_monotonic (t : Tracker) (filename userId : String)
    (uo : UploadOracle) (bo : BgOracle)
    (maxD : Rat) (load : Except String AudioData) (dOk : Bool)
    (prep : Except String Unit) (sv : Except String String)
    (hp : bo.procOut = process_audio maxD load dOk prep sv)
    (hhist : tidHist t uo.tid = []) :
    List.Chain' statusLe (tidHist (lifecycle t filename userId uo bo) uo.tid) := by
  have hc : ∀ r, bo.procOut = .ok r → r.status = "completed" := by
    intro r hr
    rw [hp] at hr
    exact process_audio_status_eq maxD load dOk prep sv r hr
  have hfull : List.Chain' statusLe
      (histStatuses [(uo.tid, "pending"), (uo.tid, "processing"),
        (uo.tid, "completed"), (uo.tid, "error")] uo.tid) := by
    simp [histStatuses]
    decide
  obtain ⟨L₀, hL₀, hs₀, hsch⟩ := upload_hist t filename userId uo
  cases hs : (upload_audio t filename userId uo).scheduled with
  | none =>
      have heq : lifecycle t filename userId uo bo
          = (upload_audio t filename userId uo).tracker := by
        unfold lifecycle
        rw [hs]
      have hth : tidHist (upload_audio t filename userId uo).tracker uo.tid
          = histStatuses L₀ uo.tid := by
        rw [tidHist, hL₀, histStatuses_append]
        rw [tidHist] at hhist
        rw [hhist, List.nil_append]
      rw [heq, hth]
      have hsub : List.Sublist (histStatuses L₀ uo.tid)
          (histStatuses [(uo.tid, "pending"), (uo.tid, "processing"),
              (uo.tid, "completed"), (uo.tid, "error")] uo.tid) :=
        histStatuses_sublist _ _ _ (hs₀.trans
          (List.Sublist.cons₂ _ (List.nil_sublist _)))
      exact hfull.sublist hsub
  | some trip =>
      obtain ⟨tid, p, u⟩ := trip
      have htid : tid = uo.tid := hsch tid p u hs
      subst htid
      obtain ⟨L₁, hL₁, hs₁⟩ :=
        bg_hist_sublist (upload_audio t filename userId uo).tracker uo.tid bo hc
      have heq : lifecycle t filename userId uo bo
          = (process_audio_background
              (upload_audio t filename userId uo).tracker uo.tid bo).1 := by
        unfold lifecycle
        rw [hs]
      have hth : tidHist (process_audio_background
            (upload_audio t filename userId uo).tracker uo.tid bo).1 uo.tid
          = histStatuses (L₀ ++ L₁) uo.tid := by
        rw [tidHist, hL₁, hL₀, List.append_assoc, histStatuses_append]
        rw [tidHist] at hhist
        rw [hhist, List.nil_append]
      rw [heq, hth]
      have hsub : List.Sublist (histStatuses (L₀ ++ L₁) uo.tid)
          (histStatuses [(uo.tid, "pending"), (uo.tid, "processing"),
              (uo.tid, "completed"), (uo.tid, "error")] uo.tid) :=
        histStatuses_sublist _ _ _ (List.Sublist.append hs₀ hs₁)
      exact hfull.sublist hsub

/-- C4 — witness: a full successful lifetime. -/
theorem C4_monotonic_witness :
    List.Chain' statusLe (tidHist
      (lifecycle ⟨[], []⟩ "f.wav" "u1"
        ⟨.ok "bytes", "t1", .ok, 4, .ok "up/f.wav"⟩
        ⟨.ok, .ok, .ok, 5, 6, 7,
          process_audio 300 (.ok ⟨10, 22050, false⟩) true (.ok ()) (.ok "p.wav"),
          true⟩) "t1") := by
  exact C4_monotonic ⟨[], []⟩ "f.wav" "u1"
    ⟨.ok "bytes", "t1", .ok, 4, .ok "up/f.wav"⟩
    ⟨.ok, .ok, .ok, 5, 6, 7,
      process_audio 300 (.ok ⟨10, 22050, false⟩) true (.ok ()) (.ok "p.wav"), true⟩
    300 (.ok ⟨10, 22050, false⟩) true (.ok ()) (.ok "p.wav") rfl rfl

end SoundPatch
